import Mathlib

/-!
Formal model of the single-file Streamlit dashboard app_Version3.py
(Sistema de Alerta Temprana para Brotes de VIH).  The numeric columns are
modelled as exact rationals; a pandas NaN result is modelled as none.  The
module-level flow that runs once per user selection is modelled as the
function evaluar below; line numbers in the doc comments refer to
app_Version3.py.
-/

/-- A row of the historical table DATASET_VIH.csv as consumed by the
script: columns Departamento, Sexo, Anio, CasosEstimados. -/
structure HistRow where
  departamento : String
  sexo : String
  anio : Int
  casosEstimados : ℚ
deriving DecidableEq

/-- A row of the forecast table predicciones_alerta_vih_2025_2030_simulado.csv:
columns Departamento, Sexo, Anio, CasosEstimados_Predichos, PromHist,
Alerta. -/
structure PredRow where
  departamento : String
  sexo : String
  anio : Int
  casosEstimadosPredichos : ℚ
  promHist : ℚ
  alerta : Bool
deriving DecidableEq

/-- Python int() applied to a rational: truncation toward zero
(line 193, casos_pred = int(...)). -/
def python_int (q : ℚ) : Int := if 0 ≤ q then ⌊q⌋ else ⌈q⌉

/-- pandas Series.mean over the listed values: sum divided by length. -/
def mean (xs : List ℚ) : ℚ := xs.sum / xs.length

/-- The square of pandas Series.std (default ddof = 1), i.e. the sample
variance with divisor n - 1.  pandas returns NaN — modelled as none — when
fewer than two values are present (0 / 0 for n = 1, empty for n = 0).  The
dashboard reads the standard deviation only through the comparisons
casos_std > 0, desviaciones < 1 and desviaciones < 2, and each of these is
determined by this square (the square root of NaN is again NaN). -/
def casos_std_sq (xs : List ℚ) : Option ℚ :=
  if xs.length ≤ 1 then none
  else some ((xs.map (fun x => (x - mean xs) ^ 2)).sum / ((xs.length : ℚ) - 1))

/-- get_current_prediction (lines 150-157): exact-equality mask over the
forecast table on Anio, Departamento and Sexo. -/
def get_current_prediction (df_pred : List PredRow) (year : Int)
    (departamento sexo : String) : List PredRow :=
  df_pred.filter fun r =>
    r.anio == year && r.departamento == departamento && r.sexo == sexo

/-- get_historical_data (lines 159-165): mask over the historical table on
Departamento and Sexo, then sort_values by Anio ascending. -/
def get_historical_data (df_hist : List HistRow) (departamento sexo : String) :
    List HistRow :=
  (df_hist.filter fun r =>
    r.departamento == departamento && r.sexo == sexo).insertionSort
    fun a b => a.anio ≤ b.anio

/-- The Tipo tag attached by prepare_combined_data. -/
inductive Tipo
  | historico
  | prediccion
deriving DecidableEq

/-- A row of df_completo: Anio, Casos, Tipo. -/
structure FusedPoint where
  anio : Int
  casos : ℚ
  tipo : Tipo
deriving DecidableEq

/-- prepare_combined_data (lines 167-183): project both tables to
(Anio, Casos, Tipo), concatenate historical before forecast, sort_values
by Anio ascending, and also return the mean of the historical Casos with
fallback 0 when the historical part is empty.  pandas sort_values fixes
only the key order; equal years are emitted here in the stable
concatenation order. -/
def prepare_combined_data (hist_data : List HistRow) (pred_data : List PredRow) :
    List FusedPoint × ℚ :=
  let df_hist_viz := hist_data.map fun r =>
    FusedPoint.mk r.anio r.casosEstimados Tipo.historico
  let df_pred_viz := pred_data.map fun r =>
    FusedPoint.mk r.anio r.casosEstimadosPredichos Tipo.prediccion
  let df_completo := (df_hist_viz ++ df_pred_viz).insertionSort
    fun a b => a.anio ≤ b.anio
  let prom_hist := if df_hist_viz.isEmpty then 0
    else mean (df_hist_viz.map FusedPoint.casos)
  (df_completo, prom_hist)

/-- The values extracted and derived in the result block (lines 191-199). -/
structure Resultado where
  casos_pred : Int
  prom_hist_pred : ℚ
  alerta : Bool
  diferencia : ℚ
  porcentaje : ℚ
deriving DecidableEq

/-- Lines 193-199: casos_pred is int() of the predicted value,
prom_hist_pred and alerta are read straight from the forecast row (the
PromHist and Alerta columns), diferencia and porcentaje are derived from
them with a zero-divisor guard on porcentaje. -/
def result_block (row : PredRow) : Resultado :=
  let casos_pred := python_int row.casosEstimadosPredichos
  let prom_hist_pred := row.promHist
  let alerta := row.alerta
  let diferencia := (casos_pred : ℚ) - prom_hist_pred
  let porcentaje := if prom_hist_pred ≠ 0 then diferencia / prom_hist_pred * 100 else 0
  ⟨casos_pred, prom_hist_pred, alerta, diferencia, porcentaje⟩

/-- The historical-statistics block (lines 348-357): min, max, mean and
standard deviation of CasosEstimados, computed only when hist_data is
non-empty; the standard deviation is carried through its square. -/
structure StatsBlock where
  casos_min : ℚ
  casos_max : ℚ
  casos_avg : ℚ
  casos_std_sq : Option ℚ
deriving DecidableEq

/-- Lines 348-357 as a function of the selected historical rows: none when
the block is skipped (hist_data empty). -/
def stats_block (hist_data : List HistRow) : Option StatsBlock :=
  match hist_data.map HistRow.casosEstimados with
  | [] => none
  | c :: cs =>
    some ⟨cs.foldl min c, cs.foldl max c, mean (c :: cs), casos_std_sq (c :: cs)⟩

/-- The risk tiers of lines 375-383 (Bajo, Moderado, Alto). -/
inductive Riesgo
  | bajo
  | moderado
  | alto
deriving DecidableEq

/-- Lines 370-373 with the standard deviation given as a number:
desviaciones = abs (casos_pred - casos_avg) / casos_std when
casos_std > 0, otherwise 0. -/
def desviaciones (casos_pred casos_avg casos_std : ℚ) : ℚ :=
  if casos_std > 0 then |casos_pred - casos_avg| / casos_std else 0

/-- Lines 375-383: the tier from the desviaciones value. -/
def riesgo (d : ℚ) : Riesgo :=
  if d < 1 then Riesgo.bajo else if d < 2 then Riesgo.moderado else Riesgo.alto

/-- The tier produced by lines 370-383 inside the dashboard, where
casos_std is the square root of the sample variance (NaN, i.e. none,
included).  casos_std > 0 holds iff the variance is positive (NaN > 0 is
False in Python), and for a positive casos_std the tests desviaciones < 1
and desviaciones < 2 are equivalent to (casos_pred - casos_avg) ^ 2 < var
and < 4 * var; the tier is decided through those squares so that it stays
computable over the rationals (riesgo_block_eq_riesgo below checks the
encoding against desviaciones and riesgo). -/
def riesgo_block (casos_pred : Int) (casos_avg : ℚ) (var : Option ℚ) : Riesgo :=
  match var with
  | none => Riesgo.bajo
  | some v =>
    if v > 0 then
      if ((casos_pred : ℚ) - casos_avg) ^ 2 < v then Riesgo.bajo
      else if ((casos_pred : ℚ) - casos_avg) ^ 2 < 4 * v then Riesgo.moderado
      else Riesgo.alto
    else Riesgo.bajo

/-- Lines 423-429: the Anio values of the forecast rows matching
(Departamento, Sexo), deduplicated (pandas unique) and sorted ascending
(Python sorted); the pre-sort order of unique is irrelevant to the sorted
result. -/
def available_years_dept (df_pred : List PredRow) (departamento sexo : String) :
    List Int :=
  (((df_pred.filter fun r =>
      r.departamento == departamento && r.sexo == sexo).map
    PredRow.anio).dedup).insertionSort fun a b => a ≤ b

/-- Outcome of one dashboard evaluation for a (year, departamento, sexo)
selection.  In the found case with empty historical data the statistics
block (line 348) is skipped, so line 370 reads the unbound name casos_std
and the script stops with a NameError; that branch carries none for the
statistics and the tier. -/
inductive EvalResult
  | found (res : Resultado) (df_completo : List FusedPoint) (prom_hist : ℚ)
      (stats : Option StatsBlock) (tier : Option Riesgo)
  | notFound (availableYears : List Int)
deriving DecidableEq

/-- The module-level flow of lines 185-431 for one selection: select the
forecast rows (the script reads iloc 0, the first match), select and sort
the history, fuse the history with the department-filtered — not
sex-filtered — forecast table (line 188), then either build the result,
statistics and tier blocks or report the available years. -/
def evaluar (df_pred : List PredRow) (df_hist : List HistRow) (year : Int)
    (departamento sexo : String) : EvalResult :=
  let current_pred := get_current_prediction df_pred year departamento sexo
  let hist_data := get_historical_data df_hist departamento sexo
  let fused := prepare_combined_data hist_data
    (df_pred.filter fun r => r.departamento == departamento)
  match current_pred with
  | [] => EvalResult.notFound (available_years_dept df_pred departamento sexo)
  | row :: _ =>
    let res := result_block row
    match stats_block hist_data with
    | none => EvalResult.found res fused.1 fused.2 none none
    | some sb => EvalResult.found res fused.1 fused.2 (some sb)
        (some (riesgo_block res.casos_pred sb.casos_avg sb.casos_std_sq))

/-- The alerta flag carried by an evaluation result, when one was found. -/
def alertaOf : EvalResult → Option Bool
  | EvalResult.found res _ _ _ _ => some res.alerta
  | EvalResult.notFound _ => none

/-- The diferencia value carried by an evaluation result. -/
def diferenciaOf : EvalResult → Option ℚ
  | EvalResult.found res _ _ _ _ => some res.diferencia
  | EvalResult.notFound _ => none

/-- The porcentaje value carried by an evaluation result. -/
def porcentajeOf : EvalResult → Option ℚ
  | EvalResult.found res _ _ _ _ => some res.porcentaje
  | EvalResult.notFound _ => none

/-- The risk tier carried by an evaluation result. -/
def tierOf : EvalResult → Option Riesgo
  | EvalResult.found _ _ _ _ t => t
  | EvalResult.notFound _ => none

/-- The fused series df_completo carried by an evaluation result. -/
def fusedOf : EvalResult → Option (List FusedPoint)
  | EvalResult.found _ f _ _ _ => some f
  | EvalResult.notFound _ => none

/-- Forecast table with a single row whose external Alerta flag is false
although the predicted value is far outside the historical norm. -/
def dfPred1 : List PredRow := [⟨"Lima", "M", 2026, 200, 20, false⟩]

/-- Historical rows for the same (Lima, M) key: values 10, 20, 30, so the
recomputed mean is 20 and the sample standard deviation is 10. -/
def dfHist1 : List HistRow :=
  [⟨"Lima", "M", 2015, 10⟩, ⟨"Lima", "M", 2016, 20⟩, ⟨"Lima", "M", 2017, 30⟩]

/-- Forecast row realising the consistency scenario of the specification:
the external flag is false while the recomputed deviation is 2.3 standard
deviations (history 100, 110, 120 has mean 110 and deviation 10; the
predicted value is 133). -/
def dfPred3 : List PredRow := [⟨"Cusco", "F", 2026, 133, 110, false⟩]

/-- Historical rows for the (Cusco, F) key with mean 110 and sample
standard deviation 10. -/
def dfHist3 : List HistRow :=
  [⟨"Cusco", "F", 2015, 100⟩, ⟨"Cusco", "F", 2016, 110⟩, ⟨"Cusco", "F", 2017, 120⟩]

/-- Forecast table holding rows of both sexes for the same department. -/
def dfPred7 : List PredRow :=
  [⟨"Lima", "M", 2026, 50, 40, false⟩, ⟨"Lima", "F", 2027, 60, 45, true⟩]

/-- A single historical row for the (Lima, M) key. -/
def dfHist7 : List HistRow := [⟨"Lima", "M", 2015, 40⟩]

/-- Forecast table with (Lima, Male) rows for 2027 and 2025 but none for
2026, plus a (Lima, Female) row for 2026. -/
def dfPred8 : List PredRow :=
  [⟨"Lima", "Male", 2027, 5, 4, false⟩, ⟨"Lima", "Male", 2025, 6, 4, true⟩,
   ⟨"Lima", "Female", 2026, 7, 4, false⟩]

/-- Forecast row whose predicted value 130.7 is not an integer. -/
def row9 : PredRow := ⟨"Lima", "M", 2026, 1307 / 10, 100, false⟩

/-- Forecast row whose PromHist column (50) differs from the mean (20) that
the statistics block recomputes from dfHist1. -/
def dfPred10 : List PredRow := [⟨"Lima", "M", 2026, 52, 50, false⟩]

/-- The squared-variance encoding used by riesgo_block agrees with the
literal reading of lines 370-383: for a standard deviation s ≥ 0 whose
square is the variance, riesgo_block yields exactly
riesgo (desviaciones casos_pred casos_avg s). -/
theorem riesgo_block_eq_riesgo (cp : Int) (avg s : ℚ) (hs : 0 ≤ s) :
    riesgo_block cp avg (some (s ^ 2)) = riesgo (desviaciones (cp : ℚ) avg s) := by
  have lhs : riesgo_block cp avg (some (s ^ 2)) =
      (if s ^ 2 > 0 then
        if ((cp : ℚ) - avg) ^ 2 < s ^ 2 then Riesgo.bajo
        else if ((cp : ℚ) - avg) ^ 2 < 4 * s ^ 2 then Riesgo.moderado
        else Riesgo.alto
      else Riesgo.bajo) := rfl
  rcases eq_or_lt_of_le hs with h0 | hpos
  · rw [lhs]
    simp [desviaciones, riesgo, ← h0]
  · have hv : (0:ℚ) < s ^ 2 := by positivity
    have h1 : (((cp : ℚ) - avg) ^ 2 < s ^ 2) ↔ |(cp : ℚ) - avg| / s < 1 := by
      rw [sq_lt_sq, abs_of_pos hpos, div_lt_one hpos]
    have h2 : (((cp : ℚ) - avg) ^ 2 < 4 * s ^ 2) ↔ |(cp : ℚ) - avg| / s < 2 := by
      have h4 : (4 : ℚ) * s ^ 2 = (2 * s) ^ 2 := by ring
      rw [h4, sq_lt_sq, abs_of_pos (by positivity : (0:ℚ) < 2 * s), div_lt_iff₀ hpos]
    rw [lhs, if_pos hv]
    unfold desviaciones riesgo
    rw [if_pos hpos]
    split_ifs <;> tauto

/-- C1: refuted at a concrete input.  On dfPred1 and dfHist1 the query
(2026, Lima, M) finds a forecast row; the recomputed tier is Alto, i.e.
deviationsFromMean = 18 ≥ 1, yet the alert carried by the returned result
is the external false flag of the row — alert is not equal to
(deviationsFromMean ≥ 1) there. -/
theorem c1_alert_counterexample :
    alertaOf (evaluar dfPred1 dfHist1 2026 "Lima" "M") = some false ∧
    tierOf (evaluar dfPred1 dfHist1 2026 "Lima" "M") = some Riesgo.alto := by
  constructor <;>
    simp [evaluar, dfPred1, dfHist1, get_current_prediction, get_historical_data,
      prepare_combined_data, stats_block, result_block, python_int, mean,
      casos_std_sq, riesgo_block, alertaOf, tierOf] <;>
    norm_num

/-- C1 amended: for every query that finds a forecast row, the alert in the
returned result equals the externally supplied Alerta flag of the first
matching forecast row (line 195); it is not recomputed from
deviationsFromMean and can disagree with the tier. -/
theorem c1_alert_is_external (df_pred : List PredRow) (df_hist : List HistRow)
    (year : Int) (departamento sexo : String) (row : PredRow) (rest : List PredRow)
    (hrow : get_current_prediction df_pred year departamento sexo = row :: rest) :
    alertaOf (evaluar df_pred df_hist year departamento sexo) = some row.alerta := by
  simp only [evaluar, hrow]
  cases stats_block (get_historical_data df_hist departamento sexo) <;>
    simp [alertaOf, result_block]

/-- C1 witness: the amended statement at the concrete tables dfPred1 and
dfHist1, whose single matching row carries the external flag false. -/
theorem c1_alert_is_external_witness :
    get_current_prediction dfPred1 2026 "Lima" "M" =
      (⟨"Lima", "M", 2026, 200, 20, false⟩ : PredRow) :: [] ∧
    alertaOf (evaluar dfPred1 dfHist1 2026 "Lima" "M") = some false :=
  ⟨by rfl,
   c1_alert_is_external dfPred1 dfHist1 2026 "Lima" "M"
     ⟨"Lima", "M", 2026, 200, 20, false⟩ [] (by rfl)⟩

/-- C2: for every predicted value and reference statistics with a positive
standard deviation, the block of lines 370-383 assigns Bajo exactly when
the deviation ratio is below 1, Moderado exactly when it lies in [1, 2),
and Alto exactly when it is at least 2; in particular, with mean 100 and
standard deviation 20, the predictions 100, 130 and 200 give Bajo,
Moderado and Alto. -/
theorem c2_tier_thresholds :
    (∀ p m s : ℚ, 0 < s →
      ((riesgo (desviaciones p m s) = Riesgo.bajo ↔ |p - m| / s < 1) ∧
       (riesgo (desviaciones p m s) = Riesgo.moderado ↔
         1 ≤ |p - m| / s ∧ |p - m| / s < 2) ∧
       (riesgo (desviaciones p m s) = Riesgo.alto ↔ 2 ≤ |p - m| / s))) ∧
    riesgo (desviaciones 100 100 20) = Riesgo.bajo ∧
    riesgo (desviaciones 130 100 20) = Riesgo.moderado ∧
    riesgo (desviaciones 200 100 20) = Riesgo.alto := by
  refine ⟨fun p m s hs => ?_, ?_, ?_, ?_⟩
  · unfold desviaciones riesgo
    rw [if_pos hs]
    refine ⟨?_, ?_, ?_⟩ <;> split_ifs with h1 h2 <;> simp_all <;> linarith
  · norm_num [desviaciones, riesgo]
  · norm_num [desviaciones, riesgo, abs_of_nonneg]
  · norm_num [desviaciones, riesgo, abs_of_nonneg]

/-- C2 witness: the threshold characterisation applied at the concrete
point (predicted 130, mean 100, standard deviation 20). -/
theorem c2_tier_thresholds_witness :
    0 < (20 : ℚ) ∧
    (riesgo (desviaciones 130 100 20) = Riesgo.moderado ↔
      1 ≤ |(130 : ℚ) - 100| / 20 ∧ |(130 : ℚ) - 100| / 20 < 2) :=
  ⟨by norm_num, (c2_tier_thresholds.1 130 100 20 (by norm_num)).2.1⟩

/-- C3: refuted at a concrete input.  dfPred3 and dfHist3 realise the
consistency scenario: the forecast row carries the external flag false
while the recomputed deviation is 2.3 standard deviations (tier Alto).
The script has no consistency check at all: the returned result carries
the external false flag, not the recomputed alert, and nothing in the
evaluation reports a warning. -/
theorem c3_no_warning_counterexample :
    alertaOf (evaluar dfPred3 dfHist3 2026 "Cusco" "F") = some false ∧
    tierOf (evaluar dfPred3 dfHist3 2026 "Cusco" "F") = some Riesgo.alto := by
  constructor <;>
    simp [evaluar, dfPred3, dfHist3, get_current_prediction, get_historical_data,
      prepare_combined_data, stats_block, result_block, python_int, mean,
      casos_std_sq, riesgo_block, alertaOf, tierOf] <;>
    norm_num

/-- C3 amended: the engine performs no consistency check.  Even when the
externally supplied flag disagrees with the locally recomputed alert (the
external flag is false while the tier is not Bajo), the returned result
still carries the external flag, never the recomputed value, and no
warning of any kind is produced. -/
theorem c3_external_flag_kept (df_pred : List PredRow) (df_hist : List HistRow)
    (year : Int) (departamento sexo : String) (row : PredRow) (rest : List PredRow)
    (t : Riesgo)
    (hrow : get_current_prediction df_pred year departamento sexo = row :: rest)
    (ht : tierOf (evaluar df_pred df_hist year departamento sexo) = some t)
    (hext : row.alerta = false) (htier : t ≠ Riesgo.bajo) :
    alertaOf (evaluar df_pred df_hist year departamento sexo) = some false := by
  simp only [evaluar, hrow]
  cases stats_block (get_historical_data df_hist departamento sexo) <;>
    simp [alertaOf, result_block, hext]

/-- C3 witness: the amended statement at the concrete scenario tables
dfPred3 and dfHist3, where the external flag is false and the recomputed
tier is Alto. -/
theorem c3_external_flag_kept_witness :
    (get_current_prediction dfPred3 2026 "Cusco" "F" =
      (⟨"Cusco", "F", 2026, 133, 110, false⟩ : PredRow) :: [] ∧
     tierOf (evaluar dfPred3 dfHist3 2026 "Cusco" "F") = some Riesgo.alto ∧
     Riesgo.alto ≠ Riesgo.bajo) ∧
    alertaOf (evaluar dfPred3 dfHist3 2026 "Cusco" "F") = some false := by
  have htier : tierOf (evaluar dfPred3 dfHist3 2026 "Cusco" "F") = some Riesgo.alto := by
    simp [evaluar, dfPred3, dfHist3, get_current_prediction, get_historical_data,
      prepare_combined_data, stats_block, result_block, python_int, mean,
      casos_std_sq, riesgo_block, tierOf]
    norm_num
  exact ⟨⟨by rfl, htier, by simp⟩,
    c3_external_flag_kept dfPred3 dfHist3 2026 "Cusco" "F"
      ⟨"Cusco", "F", 2026, 133, 110, false⟩ [] Riesgo.alto (by rfl) htier (by rfl)
      (by simp)⟩

/-- C4: refuted at a concrete input.  For a one-row history the standard
deviation computed by the statistics block is NaN (modelled none), not 0;
and for an empty history the historical average returned by
prepare_combined_data is the fallback value 0, although the claim says the
empty case never produces zero. -/
theorem c4_stats_counterexample :
    stats_block [(⟨"Lima", "M", 2015, 5⟩ : HistRow)] = some ⟨5, 5, 5, none⟩ ∧
    (stats_block [(⟨"Lima", "M", 2015, 5⟩ : HistRow)]).map StatsBlock.casos_std_sq ≠
      some (some 0) ∧
    (prepare_combined_data [] []).2 = 0 := by
  refine ⟨?_, ?_, ?_⟩
  · simp [stats_block, mean, casos_std_sq]
  · simp [stats_block, mean, casos_std_sq]
  · simp [prepare_combined_data]

/-- C4 amended: for a one-row history the statistics block yields min, max
and mean equal to the single value and a NaN standard deviation (none, the
pandas sample deviation of one value), which the casos_std > 0 guard of
line 370 then treats exactly like the zero case, giving tier Bajo; for an
empty history the statistics block is skipped entirely (none), while the
historical-average fallback of prepare_combined_data is 0. -/
theorem c4_stats_amended (r : HistRow) (preds : List PredRow) (cp : Int) (avg : ℚ) :
    stats_block [r] = some ⟨r.casosEstimados, r.casosEstimados, r.casosEstimados, none⟩ ∧
    riesgo_block cp avg none = Riesgo.bajo ∧
    stats_block [] = none ∧
    (prepare_combined_data [] preds).2 = 0 := by
  refine ⟨?_, rfl, rfl, ?_⟩
  · simp [stats_block, mean, casos_std_sq]
  · simp [prepare_combined_data]

/-- C5: the classification never divides by zero, by explicit policy.  When
the PromHist baseline of the forecast row is 0, porcentaje is defined as 0
(line 199); when the standard deviation is 0, desviaciones is defined as 0
(lines 370-373) and the tier is Bajo, both in the literal reading and in
the pipeline encoding. -/
theorem c5_div_guards (row : PredRow) (p avg : ℚ) (cp : Int)
    (hmean : row.promHist = 0) :
    (result_block row).porcentaje = 0 ∧
    desviaciones p avg 0 = 0 ∧
    riesgo (desviaciones p avg 0) = Riesgo.bajo ∧
    riesgo_block cp avg (some 0) = Riesgo.bajo := by
  refine ⟨?_, ?_, ?_, ?_⟩
  · simp [result_block, hmean]
  · simp [desviaciones]
  · norm_num [desviaciones, riesgo]
  · norm_num [riesgo_block]

/-- C5 witness: the guard statement at the concrete scenario of the
specification (mean 0, standard deviation 0, predicted value 5). -/
theorem c5_div_guards_witness :
    (⟨"Lima", "M", 2026, 5, 0, false⟩ : PredRow).promHist = 0 ∧
    ((result_block ⟨"Lima", "M", 2026, 5, 0, false⟩).porcentaje = 0 ∧
     desviaciones 5 0 0 = 0 ∧
     riesgo (desviaciones 5 0 0) = Riesgo.bajo ∧
     riesgo_block 5 0 (some 0) = Riesgo.bajo) :=
  ⟨rfl, c5_div_guards ⟨"Lima", "M", 2026, 5, 0, false⟩ 5 0 5 rfl⟩

/-- C6: refuted at a concrete input.  prepare_combined_data takes no
uptoYear bound and filters nothing: with an empty history, a single
forecast row for 2030 and the selected year 2025, the fused series still
contains the 2030 point although 2030 is not at most 2025, where the claim
demands an empty sequence. -/
theorem c6_fusion_counterexample :
    (prepare_combined_data [] [⟨"Lima", "M", 2030, 7, 3, false⟩]).1 =
      [⟨2030, 7, Tipo.prediccion⟩] ∧ ¬((2030 : Int) ≤ 2025) := by
  constructor
  · simp [prepare_combined_data]
  · decide

/-- C6 amended: for every history and forecast sequence the fused series is
sorted ascending by year, but it is not filtered by any uptoYear — it is
exactly a permutation of all projected historical points together with all
projected forecast points, whatever their years. -/
theorem c6_fusion_amended (hist : List HistRow) (preds : List PredRow) :
    (prepare_combined_data hist preds).1.Sorted (fun a b => a.anio ≤ b.anio) ∧
    (prepare_combined_data hist preds).1.Perm
      ((hist.map fun r => FusedPoint.mk r.anio r.casosEstimados Tipo.historico) ++
       (preds.map fun r => FusedPoint.mk r.anio r.casosEstimadosPredichos Tipo.prediccion)) := by
  constructor
  · haveI : IsTotal FusedPoint (fun a b => a.anio ≤ b.anio) :=
      ⟨fun a b => le_total a.anio b.anio⟩
    haveI : IsTrans FusedPoint (fun a b => a.anio ≤ b.anio) :=
      ⟨fun a b c hab hbc => le_trans hab hbc⟩
    exact List.sorted_insertionSort _ _
  · exact List.perm_insertionSort _ _

/-- Membership in the fused series: a point lies in df_completo exactly
when it is the projection of one of the historical input rows or of one of
the forecast input rows. -/
theorem mem_prepare_combined_data (hist : List HistRow) (preds : List PredRow)
    (p : FusedPoint) :
    p ∈ (prepare_combined_data hist preds).1 ↔
      (∃ r ∈ hist, p = FusedPoint.mk r.anio r.casosEstimados Tipo.historico) ∨
      (∃ r ∈ preds, p = FusedPoint.mk r.anio r.casosEstimadosPredichos Tipo.prediccion) := by
  unfold prepare_combined_data
  simp only [List.mem_insertionSort, List.mem_append, List.mem_map]
  constructor
  · rintro (⟨r, hr, rfl⟩ | ⟨r, hr, rfl⟩)
    · exact Or.inl ⟨r, hr, rfl⟩
    · exact Or.inr ⟨r, hr, rfl⟩
  · rintro (⟨r, hr, rfl⟩ | ⟨r, hr, rfl⟩)
    · exact Or.inl ⟨r, hr, rfl⟩
    · exact Or.inr ⟨r, hr, rfl⟩

/-- C7: refuted at a concrete input.  The fused series built by the
evaluation for (2026, Lima, M) contains the point (2027, 60) although the
only forecast row with year 2027 belongs to sex F: line 188 filters the
forecast table by department only, not by sex. -/
theorem c7_fusion_counterexample :
    fusedOf (evaluar dfPred7 dfHist7 2026 "Lima" "M") =
      some [⟨2015, 40, Tipo.historico⟩, ⟨2026, 50, Tipo.prediccion⟩,
            ⟨2027, 60, Tipo.prediccion⟩] ∧
    (dfPred7.filter fun r => r.anio == 2027) =
      [⟨"Lima", "F", 2027, 60, 45, true⟩] ∧
    ((⟨"Lima", "F", 2027, 60, 45, true⟩ : PredRow).sexo = "M" → False) := by
  refine ⟨?_, by rfl, by simp⟩
  simp [evaluar, dfPred7, dfHist7, get_current_prediction, get_historical_data,
    prepare_combined_data, stats_block, result_block, python_int, mean,
    casos_std_sq, riesgo_block, fusedOf]

/-- C7 amended: the fused series of any evaluation combines the historical
subseries matching (region, sex) with the forecast subseries matching the
region only — a point lies in it exactly when it comes from a historical
row with both fields matching or from a forecast row whose department
matches, whatever that row's sex. -/
theorem c7_fusion_amended (df_pred : List PredRow) (df_hist : List HistRow)
    (year : Int) (departamento sexo : String) (fused : List FusedPoint)
    (hf : fusedOf (evaluar df_pred df_hist year departamento sexo) = some fused)
    (p : FusedPoint) :
    p ∈ fused ↔
      (∃ r ∈ df_hist, r.departamento = departamento ∧ r.sexo = sexo ∧
        p = FusedPoint.mk r.anio r.casosEstimados Tipo.historico) ∨
      (∃ r ∈ df_pred, r.departamento = departamento ∧
        p = FusedPoint.mk r.anio r.casosEstimadosPredichos Tipo.prediccion) := by
  have hfused : fused =
      (prepare_combined_data (get_historical_data df_hist departamento sexo)
        (df_pred.filter fun r => r.departamento == departamento)).1 := by
    revert hf
    simp only [evaluar]
    cases get_current_prediction df_pred year departamento sexo with
    | nil => simp [fusedOf]
    | cons row rest =>
      cases stats_block (get_historical_data df_hist departamento sexo) <;>
        · simp only [fusedOf, Option.some.injEq]
          exact fun h => h.symm
  subst hfused
  rw [mem_prepare_combined_data]
  simp only [get_historical_data, List.mem_insertionSort, List.mem_filter,
    Bool.and_eq_true, beq_iff_eq]
  constructor
  · rintro (⟨r, ⟨hr, hd, hs⟩, rfl⟩ | ⟨r, ⟨hr, hd⟩, rfl⟩)
    · exact Or.inl ⟨r, hr, hd, hs, rfl⟩
    · exact Or.inr ⟨r, hr, hd, rfl⟩
  · rintro (⟨r, hr, hd, hs, rfl⟩ | ⟨r, hr, hd, rfl⟩)
    · exact Or.inl ⟨r, ⟨hr, hd, hs⟩, rfl⟩
    · exact Or.inr ⟨r, ⟨hr, hd⟩, rfl⟩

/-- C7 witness: the amended membership applied to the concrete tables
dfPred7 and dfHist7 at the cross-sex point (2027, 60). -/
theorem c7_fusion_amended_witness :
    fusedOf (evaluar dfPred7 dfHist7 2026 "Lima" "M") =
      some [⟨2015, 40, Tipo.historico⟩, ⟨2026, 50, Tipo.prediccion⟩,
            ⟨2027, 60, Tipo.prediccion⟩] ∧
    ((⟨2027, 60, Tipo.prediccion⟩ : FusedPoint) ∈
        [(⟨2015, 40, Tipo.historico⟩ : FusedPoint), ⟨2026, 50, Tipo.prediccion⟩,
         ⟨2027, 60, Tipo.prediccion⟩] ↔
      (∃ r ∈ dfHist7, r.departamento = "Lima" ∧ r.sexo = "M" ∧
        (⟨2027, 60, Tipo.prediccion⟩ : FusedPoint) =
          FusedPoint.mk r.anio r.casosEstimados Tipo.historico) ∨
      (∃ r ∈ dfPred7, r.departamento = "Lima" ∧
        (⟨2027, 60, Tipo.prediccion⟩ : FusedPoint) =
          FusedPoint.mk r.anio r.casosEstimadosPredichos Tipo.prediccion)) := by
  have hf : fusedOf (evaluar dfPred7 dfHist7 2026 "Lima" "M") =
      some [⟨2015, 40, Tipo.historico⟩, ⟨2026, 50, Tipo.prediccion⟩,
            ⟨2027, 60, Tipo.prediccion⟩] := by
    simp [evaluar, dfPred7, dfHist7, get_current_prediction, get_historical_data,
      prepare_combined_data, stats_block, result_block, python_int, mean,
      casos_std_sq, riesgo_block, fusedOf]
  exact ⟨hf, c7_fusion_amended dfPred7 dfHist7 2026 "Lima" "M" _ hf
    ⟨2027, 60, Tipo.prediccion⟩⟩

/-- C8: when no forecast row matches the query key, the evaluation returns
the not-found outcome carrying the available years for the selected
(Departamento, Sexo): that list is sorted ascending, and a year belongs to
it exactly when some forecast row with that department, sex and year
exists. -/
theorem c8_not_found (df_pred : List PredRow) (df_hist : List HistRow) (year : Int)
    (departamento sexo : String)
    (h : get_current_prediction df_pred year departamento sexo = []) :
    evaluar df_pred df_hist year departamento sexo =
      EvalResult.notFound (available_years_dept df_pred departamento sexo) ∧
    (available_years_dept df_pred departamento sexo).Sorted (· ≤ ·) ∧
    ∀ y : Int, y ∈ available_years_dept df_pred departamento sexo ↔
      ∃ r ∈ df_pred, r.departamento = departamento ∧ r.sexo = sexo ∧ r.anio = y := by
  refine ⟨?_, ?_, ?_⟩
  · simp only [evaluar, h]
  · exact List.sorted_insertionSort _ _
  · intro y
    simp only [available_years_dept, List.mem_insertionSort, List.mem_dedup,
      List.mem_map, List.mem_filter, Bool.and_eq_true, beq_iff_eq]
    constructor
    · rintro ⟨r, ⟨hr, hd, hs⟩, ha⟩
      exact ⟨r, hr, hd, hs, ha⟩
    · rintro ⟨r, hr, hd, hs, ha⟩
      exact ⟨r, ⟨hr, hd, hs⟩, ha⟩

/-- C8 witness: the specification scenario — the query (2026, Lima, Male)
has no matching forecast row in dfPred8, and the evaluation reports the
sorted years 2025 and 2027 that do have (Lima, Male) rows. -/
theorem c8_not_found_witness :
    get_current_prediction dfPred8 2026 "Lima" "Male" = [] ∧
    available_years_dept dfPred8 "Lima" "Male" = [2025, 2027] ∧
    evaluar dfPred8 [] 2026 "Lima" "Male" =
      EvalResult.notFound (available_years_dept dfPred8 "Lima" "Male") :=
  ⟨by rfl, by rfl, (c8_not_found dfPred8 [] 2026 "Lima" "Male" (by rfl)).1⟩

/-- C9: refuted at a concrete input.  For the forecast row row9 whose
predicted value is 130.7, line 193 truncates the value with int(), so the
result block reports casos_pred 130 and diferencia 30, while the claim
(deviation computed from the unchanged predicted value) demands
130.7 - 100 = 30.7. -/
theorem c9_truncation_counterexample :
    (result_block row9).casos_pred = 130 ∧
    (result_block row9).diferencia = 30 ∧
    row9.casosEstimadosPredichos - row9.promHist = 307 / 10 ∧
    ((30 : ℚ) = 307 / 10 → False) := by
  refine ⟨?_, ?_, ?_, by norm_num⟩ <;>
    norm_num [result_block, row9, python_int]

/-- C9 amended: the predicted value is truncated toward zero to an integer
by int() before the deviation and percentage are computed; after that
truncation no further rounding occurs (diferencia and porcentaje are exact
rational functions of the truncated value and PromHist), the truncated
value lies within one unit below the predicted value for nonnegative
inputs, and integer-valued predictions pass through unchanged. -/
theorem c9_truncation_amended (row : PredRow) (n : Int) :
    (result_block row).casos_pred = python_int row.casosEstimadosPredichos ∧
    (result_block row).diferencia =
      (python_int row.casosEstimadosPredichos : ℚ) - row.promHist ∧
    (result_block row).porcentaje =
      (if row.promHist ≠ 0 then
        ((python_int row.casosEstimadosPredichos : ℚ) - row.promHist) / row.promHist * 100
       else 0) ∧
    (0 ≤ row.casosEstimadosPredichos →
      (python_int row.casosEstimadosPredichos : ℚ) ≤ row.casosEstimadosPredichos ∧
      row.casosEstimadosPredichos < (python_int row.casosEstimadosPredichos : ℚ) + 1) ∧
    (row.casosEstimadosPredichos = (n : ℚ) → python_int row.casosEstimadosPredichos = n) := by
  refine ⟨rfl, rfl, rfl, fun hq => ?_, fun hn => ?_⟩
  · unfold python_int
    rw [if_pos hq]
    exact ⟨Int.floor_le _, by push_cast; exact Int.lt_floor_add_one _⟩
  · unfold python_int
    rw [hn]
    split_ifs <;> simp

/-- C9 witness: the amended statement at the concrete row row9 with
predicted value 130.7. -/
theorem c9_truncation_amended_witness :
    0 ≤ row9.casosEstimadosPredichos ∧
    (result_block row9).diferencia =
      (python_int row9.casosEstimadosPredichos : ℚ) - row9.promHist ∧
    ((python_int row9.casosEstimadosPredichos : ℚ) ≤ row9.casosEstimadosPredichos ∧
      row9.casosEstimadosPredichos < (python_int row9.casosEstimadosPredichos : ℚ) + 1) :=
  ⟨by norm_num [row9], (c9_truncation_amended row9 130).2.1,
   (c9_truncation_amended row9 130).2.2.2.1 (by norm_num [row9])⟩

/-- C10: for every query that finds a forecast row and has a non-empty
history, the reported diferencia is computed against the PromHist column
of the forecast row, while the tier is computed against the mean and
deviation recomputed from the historical rows — when the two baselines
differ, the displayed deviation and the assigned tier rest on different
reference means. -/
theorem c10_two_baselines (df_pred : List PredRow) (df_hist : List HistRow)
    (year : Int) (departamento sexo : String) (row : PredRow) (rest : List PredRow)
    (hrow : get_current_prediction df_pred year departamento sexo = row :: rest)
    (hne : get_historical_data df_hist departamento sexo ≠ []) :
    diferenciaOf (evaluar df_pred df_hist year departamento sexo) =
      some ((python_int row.casosEstimadosPredichos : ℚ) - row.promHist) ∧
    tierOf (evaluar df_pred df_hist year departamento sexo) =
      some (riesgo_block (python_int row.casosEstimadosPredichos)
        (mean ((get_historical_data df_hist departamento sexo).map HistRow.casosEstimados))
        (casos_std_sq
          ((get_historical_data df_hist departamento sexo).map HistRow.casosEstimados))) := by
  simp only [evaluar, hrow]
  cases hh : (get_historical_data df_hist departamento sexo).map HistRow.casosEstimados with
  | nil => exact absurd (List.map_eq_nil_iff.mp hh) hne
  | cons c cs =>
    simp only [stats_block, hh]
    exact ⟨by simp [diferenciaOf, result_block], by simp [tierOf, result_block]⟩

/-- C10 witness: on dfPred10 and dfHist1 the PromHist baseline is 50 while
the recomputed historical mean is 20; the reported diferencia is
52 - 50 = 2 (judged against PromHist) while the tier is Alto (52 is 3.2
recomputed standard deviations above the recomputed mean 20). -/
theorem c10_two_baselines_witness :
    (get_current_prediction dfPred10 2026 "Lima" "M" =
      (⟨"Lima", "M", 2026, 52, 50, false⟩ : PredRow) :: [] ∧
     get_historical_data dfHist1 "Lima" "M" ≠ []) ∧
    diferenciaOf (evaluar dfPred10 dfHist1 2026 "Lima" "M") = some 2 ∧
    tierOf (evaluar dfPred10 dfHist1 2026 "Lima" "M") = some Riesgo.alto ∧
    (⟨"Lima", "M", 2026, 52, 50, false⟩ : PredRow).promHist ≠
      mean ((get_historical_data dfHist1 "Lima" "M").map HistRow.casosEstimados) := by
  have hne : get_historical_data dfHist1 "Lima" "M" ≠ [] := by
    simp [get_historical_data, dfHist1]
  have h := c10_two_baselines dfPred10 dfHist1 2026 "Lima" "M"
    ⟨"Lima", "M", 2026, 52, 50, false⟩ [] (by rfl) hne
  refine ⟨⟨by rfl, hne⟩, ?_, ?_, ?_⟩
  · rw [h.1]
    norm_num [python_int]
  · rw [h.2]
    norm_num [get_historical_data, dfHist1, mean, casos_std_sq, riesgo_block, python_int]
  · norm_num [get_historical_data, dfHist1, mean]
